import Mathlib

/-!
Verification of the scan worker lifecycle in
`v2/pkg/web/api/services/scans/worker.go` (nuclei).

The Go code is shallowly embedded: external collaborators (settings store,
YAML decoder, template materializer, log store, loaders, input provider,
execution engine) are oracles carried in an `Env` record; the mutable shared
state touched by this layer (the `Running` registry of in-flight scans, the
per-scan log sinks) is threaded explicitly as a `WorkerState`, together with
a trace of resource actions (`Event`) that records the order in which
acquisition and release steps happen.  Go's `defer` statements are embedded
by applying the deferred cleanup at every return point that they cover, in
reverse registration order, exactly as Go executes them.
-/

set_option autoImplicit false

namespace Scans

/-- Error values returned by the collaborators; the pipeline only propagates
them, so their identity is abstract. -/
inductive Err where
  | notFound
  | decodeFailed
  | materialization
  | io
  | loaderConstruction
  | storeConstruction
  | inputResolution
  | engine
  deriving DecidableEq, Repr

/-- The progress tracker instance returned by `progress.NewStatsTicker`;
its internals are opaque to this layer, so it is identified by a tag. -/
structure Progress where
  tag : Nat
  deriving DecidableEq, Repr

/-- `PercentReturnFunc` from worker.go: a closure over a progress tracker
returning its percent-complete value.  Embedded as the captured tracker. -/
structure PercentReturnFunc where
  stats : Progress
  deriving DecidableEq, Repr

/-- `makePercentReturnFunc` from worker.go: builds the accessor closing over
the given progress tracker. -/
def makePercentReturnFunc (stats : Progress) : PercentReturnFunc :=
  { stats := stats }

/-- The fields of `types.Options` read or written by worker.go:
`RateLimit`, `RateLimitMinute`, `TemplatesDirectory`, `Templates`,
`Workflows` (Go `int` fields are `Int`). -/
structure TypesOptions where
  rateLimit : Int
  rateLimitMinute : Int
  templatesDirectory : String
  templates : List String
  workflows : List String
  deriving DecidableEq, Repr

/-- Modelled from the spec: the settings record decoded from the stored
YAML document (`settings.Settings`, package not under src/).  It carries at
least the rate-limit and rate-limit-per-minute integers. -/
structure Settings where
  rateLimit : Int
  rateLimitMinute : Int
  deriving DecidableEq, Repr

/-- Modelled from the spec: `Settings.ToTypesOptions` (package not under
src/), a pure total conversion of the decoded settings record into
`types.Options`; the template fields are filled in later by `worker`. -/
def Settings.ToTypesOptions (s : Settings) : TypesOptions :=
  { rateLimit := s.rateLimit
    rateLimitMinute := s.rateLimitMinute
    templatesDirectory := ""
    templates := []
    workflows := [] }

/-- Shape of a `go.uber.org/ratelimit` token-bucket limiter: `rate`
operations per window of `perSeconds` seconds. -/
structure RateLimiter where
  rate : Int
  perSeconds : Nat
  deriving DecidableEq, Repr

/-- `ratelimit.New(rate)`: `rate` operations per second. -/
def ratelimitNew (rate : Int) : RateLimiter :=
  { rate := rate, perSeconds := 1 }

/-- `ratelimit.New(rate, ratelimit.Per(d))`: `rate` operations per `d`
seconds. -/
def ratelimitNewPer (rate : Int) (seconds : Nat) : RateLimiter :=
  { rate := rate, perSeconds := seconds }

/-- `catalog.New(directory)`: a catalog rooted at the given templates
directory. -/
structure Catalog where
  directory : String
  deriving DecidableEq, Repr

def catalogNew (directory : String) : Catalog :=
  { directory := directory }

/-- `newWrappedOutputWriter(db, buflogWriter, scanID)`: the output writer
wrapping the buffered per-scan log; identified by the scan it serves. -/
structure OutputWriter where
  scanID : Int
  deriving DecidableEq, Repr

def newWrappedOutputWriter (scanID : Int) : OutputWriter :=
  { scanID := scanID }

/-- The workflow loader built by `parsers.NewLoader`; opaque to this layer. -/
structure WorkflowLoader where
  tag : Nat
  deriving DecidableEq, Repr

/-- A template or workflow identifier (`*templates.Template` is opaque to
this layer). -/
abbrev Template := String

/-- Modelled from the spec: the template/workflow store (`loader.Store`,
package not under src/).  After loading it exposes the loaded template list
and workflow list; `loadOk` records whether its load step succeeded, since
the spec treats loading as fallible. -/
structure Store where
  templates : List Template
  workflows : List Template
  loadOk : Bool
  deriving DecidableEq, Repr

/-- Modelled from the spec: `Store.Load` performs the template/workflow
load; the second component is its success flag.  The caller in worker.go
invokes it as a bare statement, so whatever this flag is gets discarded. -/
def Store.Load (s : Store) : Store × Bool :=
  (s, s.loadOk)

def Store.Templates (s : Store) : List Template :=
  s.templates

def Store.Workflows (s : Store) : List Template :=
  s.workflows

/-- `protocols.ExecuterOptions` as assembled by worker.go (`IssuesClient`
is always nil there and is omitted). -/
structure ExecuterOptions where
  output : OutputWriter
  options : TypesOptions
  progress : Progress
  catalog : Catalog
  rateLimiter : RateLimiter
  workflowLoader : Option WorkflowLoader
  deriving DecidableEq, Repr

/-- `core.Engine`: built by `core.New` and completed by
`SetExecuterOptions`; execution itself is an external collaborator. -/
structure Engine where
  options : TypesOptions
  executerOpts : Option ExecuterOptions
  deriving DecidableEq, Repr

def coreNew (options : TypesOptions) : Engine :=
  { options := options, executerOpts := none }

def Engine.SetExecuterOptions (e : Engine) (opts : ExecuterOptions) : Engine :=
  { e with executerOpts := some opts }

/-- The input provider built from the request's targets; worker.go only
reads `Count()` (an `int64`). -/
structure InputProvider where
  count : Int
  deriving DecidableEq, Repr

/-- `ScanRequest` as consumed by `worker`: `ScanID`, `Config`, `Templates`,
`Targets`. -/
structure ScanRequest where
  scanID : Int
  config : String
  templates : List String
  targets : List String
  deriving DecidableEq, Repr

/-- Resource actions performed by this layer, in the order they happen.
`gologger` observability lines are not resource actions and are not
traced. -/
inductive Event where
  | registerProgress (scanID : Int)
  | logOpen (scanID : Int)
  | flushLogs (scanID : Int)
  | closeLogSink (scanID : Int)
  | unregister (scanID : Int)
  | progressInit (targets : Int) (templatesCount : Nat) (total : Int)
  | engineExecute (discardedErr : Option Err)
  | metricsEmitted (metrics : List (String × Int))
  | removeWorkDir (dir : String)
  deriving DecidableEq, Repr

/-- The mutable state this layer touches: the `Running` registry
(`sync.Map` from scan ID to progress accessor), the set of scan IDs whose
log sink is currently open, and the trace of resource actions. -/
structure WorkerState where
  running : List (Int × PercentReturnFunc)
  openSinks : List Int
  events : List Event
  deriving DecidableEq, Repr

/-- `sync.Map.Store`: insert the mapping, overwriting an existing entry for
the same key. -/
def runningStore (m : List (Int × PercentReturnFunc)) (k : Int)
    (v : PercentReturnFunc) : List (Int × PercentReturnFunc) :=
  match m with
  | [] => [(k, v)]
  | (k', v') :: rest =>
    if k' = k then (k, v) :: rest else (k', v') :: runningStore rest k v

/-- `sync.Map.Delete`: remove any entry for the key; a no-op when absent. -/
def runningDelete (m : List (Int × PercentReturnFunc)) (k : Int) :
    List (Int × PercentReturnFunc) :=
  m.filter (fun p => p.1 != k)

/-- `sync.Map.Load`: look up the entry for the key. -/
def runningLookup (m : List (Int × PercentReturnFunc)) (k : Int) :
    Option PercentReturnFunc :=
  match m with
  | [] => none
  | (k', v) :: rest => if k' = k then some v else runningLookup rest k

/-- Outcomes of the external collaborators during one `worker` run.
Construction results that worker.go obtains exactly once per run are
plain values; per-argument collaborators are functions. -/
structure Env where
  getSettingByName : String → Except Err String
  yamlDecode : String → Except Err Settings
  storeTemplatesFromRequest :
    List String → Except Err (String × List String × List String)
  newStatsTicker : Progress × Option Err
  logsWrite : Int → Except Err Unit
  newLoader : Except Err WorkflowLoader
  loaderNew : Except Err Store
  inputProviderFromRequest : List String → Except Err InputProvider
  executeResult : Option Err
  getMetrics : List (String × Int)

/-- `getSettingsForName` from worker.go: fetch the stored setting row,
YAML-decode it into a settings record, convert to `types.Options`. -/
def getSettingsForName (env : Env) (name : String) : Except Err TypesOptions :=
  match env.getSettingByName name with
  | .error e => .error e
  | .ok settingdata =>
    match env.yamlDecode settingdata with
    | .error yamlErr => .error yamlErr
    | .ok s => .ok s.ToTypesOptions

/-- The scan context from worker.go.  The buffered log writer and the
underlying sink are tracked per scan ID in `WorkerState`; the back-reference
to the owning service is the threaded state itself. -/
structure scanContext where
  scanID : Int
  executer : Option Engine
  store : Option Store
  typesOptions : TypesOptions
  executerOpts : ExecuterOptions
  deriving DecidableEq, Repr

/-- `createExecuterOpts` from worker.go: build a non-ticking progress
tracker (its constructor error is discarded), store the percent accessor in
the `Running` registry, open the per-scan log sink (the only fallible step),
wrap the output writer, pick the rate limiter, and assemble the scan
context. -/
def createExecuterOpts (env : Env) (st : WorkerState) (scanID : Int)
    (templatesDirectory : String) (typesOptions : TypesOptions) :
    Except Err scanContext × WorkerState :=
  let progressImpl := env.newStatsTicker.1
  let st1 : WorkerState :=
    { st with
      running := runningStore st.running scanID
        (makePercentReturnFunc progressImpl)
      events := st.events ++ [Event.registerProgress scanID] }
  match env.logsWrite scanID with
  | .error e => (.error e, st1)
  | .ok _ =>
    let st2 : WorkerState :=
      { st1 with
        openSinks := scanID :: st1.openSinks
        events := st1.events ++ [Event.logOpen scanID] }
    let outputWriter := newWrappedOutputWriter scanID
    let executerOpts : ExecuterOptions :=
      { output := outputWriter
        options := typesOptions
        progress := progressImpl
        catalog := catalogNew templatesDirectory
        rateLimiter :=
          if typesOptions.rateLimitMinute > 0 then
            ratelimitNewPer typesOptions.rateLimitMinute 60
          else
            ratelimitNew typesOptions.rateLimit
        workflowLoader := none }
    (.ok
      { scanID := scanID
        executer := none
        store := none
        typesOptions := typesOptions
        executerOpts := executerOpts }, st2)

/-- `scanContext.Close` from worker.go: flush the buffered log writer,
close the underlying log sink, delete the scan's registry entry — in that
order. -/
def scanContext.Close (s : scanContext) (st : WorkerState) : WorkerState :=
  { st with
    events := st.events ++
      [Event.flushLogs s.scanID, Event.closeLogSink s.scanID,
        Event.unregister s.scanID]
    openSinks := st.openSinks.filter (fun i => i != s.scanID)
    running := runningDelete st.running s.scanID }

/-- `createExecuterFromOpts` from worker.go: build the workflow loader
(propagating its error), build the store (propagating its error), run the
store's load step as a bare statement (its outcome is discarded), then
build the core engine and hand it the executer options. -/
def createExecuterFromOpts (env : Env) (scanCtx : scanContext) :
    Except Err scanContext :=
  match env.newLoader with
  | .error e => .error e
  | .ok workflowLoader =>
    let scanCtx1 : scanContext :=
      { scanCtx with
        executerOpts :=
          { scanCtx.executerOpts with workflowLoader := some workflowLoader } }
    match env.loaderNew with
    | .error e => .error e
    | .ok store =>
      let loaded := store.Load
      let scanCtx2 : scanContext := { scanCtx1 with store := some loaded.1 }
      let executer :=
        (coreNew scanCtx2.typesOptions).SetExecuterOptions scanCtx2.executerOpts
      .ok { scanCtx2 with executer := some executer }

/-- `os.RemoveAll(dir)` on the materialized working area. -/
def osRemoveAll (st : WorkerState) (dir : String) : WorkerState :=
  { st with events := st.events ++ [Event.removeWorkDir dir] }

/-- Two's-complement wrap of Go's 64-bit `int` multiplication result. -/
def wrap64 (x : Int) : Int :=
  (x + 2 ^ 63) % 2 ^ 64 - 2 ^ 63

/-- The templates exposed by an optional store pointer (`nil` exposes
nothing; on the paths `worker` takes the pointer is always set). -/
def storeTemplatesOf : Option Store → List Template
  | some s => s.Templates
  | none => []

def storeWorkflowsOf : Option Store → List Template
  | some s => s.Workflows
  | none => []

/-- `worker` from worker.go.  Deferred cleanups are applied at every return
point they cover, in reverse registration order: `scanCtx.Close()` (second
defer) runs before `os.RemoveAll(templatesDirectory)` (first defer). -/
def worker (env : Env) (st : WorkerState) (req : ScanRequest) :
    Except Err Unit × WorkerState :=
  match getSettingsForName env req.config with
  | .error e => (.error e, st)
  | .ok typesOptions0 =>
    match env.storeTemplatesFromRequest req.templates with
    | .error e => (.error e, st)
    | .ok (templatesDirectory, templatesList, workflowsList) =>
      let typesOptions : TypesOptions :=
        { typesOptions0 with
          templatesDirectory := templatesDirectory
          templates := templatesList
          workflows := workflowsList }
      match createExecuterOpts env st req.scanID templatesDirectory
          typesOptions with
      | (.error e, st1) => (.error e, osRemoveAll st1 templatesDirectory)
      | (.ok scanCtx, st1) =>
        match createExecuterFromOpts env scanCtx with
        | .error e =>
          (.error e, osRemoveAll (scanCtx.Close st1) templatesDirectory)
        | .ok scanCtx2 =>
          let finalTemplates :=
            storeTemplatesOf scanCtx2.store ++ storeWorkflowsOf scanCtx2.store
          match env.inputProviderFromRequest req.targets with
          | .error e =>
            (.error e, osRemoveAll (scanCtx.Close st1) templatesDirectory)
          | .ok inputProvider =>
            let st2 : WorkerState :=
              { st1 with
                events := st1.events ++
                  [Event.progressInit inputProvider.count
                    finalTemplates.length
                    (wrap64 ((finalTemplates.length : Int) *
                      inputProvider.count))] }
            let st3 : WorkerState :=
              { st2 with
                events := st2.events ++
                  [Event.engineExecute env.executeResult] }
            let st4 : WorkerState :=
              { st3 with
                events := st3.events ++
                  [Event.metricsEmitted env.getMetrics] }
            (.ok (), osRemoveAll (scanCtx.Close st4) templatesDirectory)

/-- Boolean success test for `Except` results. -/
def exceptIsOk {ε α : Type} : Except ε α → Bool
  | .ok _ => true
  | .error _ => false

/-! Concrete fixtures used to evaluate the definitions on closed inputs. -/

def progress0 : Progress := { tag := 0 }

def wl0 : WorkflowLoader := { tag := 0 }

def store0 : Store :=
  { templates := ["t1", "t2"], workflows := ["w1"], loadOk := true }

/-- A run in which every collaborator succeeds; the engine reports an
internal error, which worker.go discards. -/
def envOk : Env :=
  { getSettingByName := fun _ => .ok "rate-limit: 10"
    yamlDecode := fun _ => .ok { rateLimit := 10, rateLimitMinute := 0 }
    storeTemplatesFromRequest := fun _ => .ok ("/tmp/scan", ["t1", "t2"], ["w1"])
    newStatsTicker := (progress0, none)
    logsWrite := fun _ => .ok ()
    newLoader := .ok wl0
    loaderNew := .ok store0
    inputProviderFromRequest := fun _ => .ok { count := 3 }
    executeResult := some Err.engine
    getMetrics := [("requests", 42)] }

def envLogFail : Env := { envOk with logsWrite := fun _ => .error Err.io }

def envLoaderFail : Env :=
  { envOk with newLoader := .error Err.loaderConstruction }

def envLoadFail : Env :=
  { envOk with loaderNew := .ok { store0 with loadOk := false } }

def envSettingsFail : Env :=
  { envOk with getSettingByName := fun _ => .error Err.notFound }

def req0 : ScanRequest :=
  { scanID := 7, config := "default", templates := ["tref"],
    targets := ["https://example.com"] }

def st0 : WorkerState := { running := [], openSinks := [], events := [] }

/-- The options `getSettingsForName envOk "default"` decodes. -/
def oDecoded : TypesOptions :=
  { rateLimit := 10, rateLimitMinute := 0, templatesDirectory := ""
    templates := [], workflows := [] }

def o0 : TypesOptions :=
  { rateLimit := 10, rateLimitMinute := 0, templatesDirectory := "/tmp/scan"
    templates := ["t1", "t2"], workflows := ["w1"] }

def eo0 : ExecuterOptions :=
  { output := newWrappedOutputWriter 7
    options := o0
    progress := progress0
    catalog := catalogNew "/tmp/scan"
    rateLimiter := ratelimitNew 10
    workflowLoader := none }

def ctx0 : scanContext :=
  { scanID := 7, executer := none, store := none, typesOptions := o0
    executerOpts := eo0 }

/-! Registry lemmas. -/

theorem runningLookup_runningStore_self
    (m : List (Int × PercentReturnFunc)) (k : Int) (v : PercentReturnFunc) :
    runningLookup (runningStore m k v) k = some v := by
  induction m with
  | nil => simp [runningStore, runningLookup]
  | cons p rest ih =>
    obtain ⟨k', v'⟩ := p
    by_cases h : k' = k
    · simp [runningStore, runningLookup, h]
    · simp [runningStore, runningLookup, h, ih]

theorem runningLookup_runningDelete_self
    (m : List (Int × PercentReturnFunc)) (k : Int) :
    runningLookup (runningDelete m k) k = none := by
  induction m with
  | nil => rfl
  | cons p rest ih =>
    obtain ⟨k', v'⟩ := p
    by_cases h : k' = k
    · simpa [runningDelete, List.filter_cons, h] using ih
    · simpa [runningDelete, List.filter_cons, h, runningLookup] using ih

theorem notMem_filter_bne_self (l : List Int) (k : Int) :
    k ∉ l.filter (fun i => i != k) := by
  simp [List.mem_filter]

/-- C6: for every scan context, `Close` performs exactly the three release
actions flush-buffered-log, close-log-sink, unregister-job-ID, in that
order (the appended trace is exactly those three events); afterwards the
registry has no entry for the scan and its sink is not open. -/
theorem close_flushes_closes_unregisters_in_order (ctx : scanContext)
    (st : WorkerState) :
    (ctx.Close st).events =
      st.events ++ [Event.flushLogs ctx.scanID, Event.closeLogSink ctx.scanID,
        Event.unregister ctx.scanID] ∧
    runningLookup (ctx.Close st).running ctx.scanID = none ∧
    ctx.scanID ∉ (ctx.Close st).openSinks :=
  ⟨rfl, runningLookup_runningDelete_self _ _, notMem_filter_bne_self _ _⟩

/-- C10: `createExecuterOpts` discards the progress-tracker constructor
error (the statement holds for every value of `env.newStatsTicker.2`), so
its result is a success exactly when the log-sink open is; the progress
accessor closing over the returned tracker is stored in the registry
unconditionally, and the registration action precedes the log-open action
in the trace (the registration event is traced even when the open fails). -/
theorem createExecuterOpts_registers_before_log_open (env : Env)
    (st : WorkerState) (scanID : Int) (dir : String) (o : TypesOptions) :
    exceptIsOk (createExecuterOpts env st scanID dir o).1 =
      exceptIsOk (env.logsWrite scanID) ∧
    runningLookup (createExecuterOpts env st scanID dir o).2.running scanID =
      some (makePercentReturnFunc env.newStatsTicker.1) ∧
    (createExecuterOpts env st scanID dir o).2.events =
      st.events ++ Event.registerProgress scanID ::
        (match env.logsWrite scanID with
          | .ok _ => [Event.logOpen scanID]
          | .error _ => []) := by
  cases hE : env.logsWrite scanID with
  | error e =>
    refine ⟨?_, ?_, ?_⟩ <;>
      simp [createExecuterOpts, hE, exceptIsOk,
        runningLookup_runningStore_self]
  | ok u =>
    refine ⟨?_, ?_, ?_⟩ <;>
      simp [createExecuterOpts, hE, exceptIsOk,
        runningLookup_runningStore_self]

/-- C3: when JobContext creation succeeds, limiter selection is
deterministic and exactly one branch executes: a positive per-minute value
yields that many operations per 60-second window, otherwise the plain
per-second value is used; the constructed limiter is always exactly one of
the two shapes, never a combination. -/
theorem createExecuterOpts_rate_limiter_selection (env : Env)
    (st : WorkerState) (scanID : Int) (dir : String) (o : TypesOptions)
    (hlog : exceptIsOk (env.logsWrite scanID) = true) :
    ∃ ctx st',
      createExecuterOpts env st scanID dir o = (Except.ok ctx, st') ∧
      (0 < o.rateLimitMinute →
        ctx.executerOpts.rateLimiter = ratelimitNewPer o.rateLimitMinute 60) ∧
      (¬ 0 < o.rateLimitMinute →
        ctx.executerOpts.rateLimiter = ratelimitNew o.rateLimit) ∧
      (ctx.executerOpts.rateLimiter = ratelimitNewPer o.rateLimitMinute 60 ∨
        ctx.executerOpts.rateLimiter = ratelimitNew o.rateLimit) := by
  cases hE : env.logsWrite scanID with
  | error e => rw [hE] at hlog; simp [exceptIsOk] at hlog
  | ok u =>
    simp only [createExecuterOpts, hE]
    refine ⟨_, _, rfl, fun hm => ?_, fun hm => ?_, ?_⟩
    · simp [hm]
    · simp [hm]
    · by_cases hm : 0 < o.rateLimitMinute
      · exact Or.inl (by simp [hm])
      · exact Or.inr (by simp [hm])

/-- C3 witness: on the concrete all-success fixture the limiter is the
plain 10-per-second one. -/
theorem createExecuterOpts_rate_limiter_selection_witness :
    exceptIsOk (envOk.logsWrite 7) = true ∧
    (∃ ctx st',
      createExecuterOpts envOk st0 7 "/tmp/scan" o0 = (Except.ok ctx, st') ∧
      (0 < o0.rateLimitMinute →
        ctx.executerOpts.rateLimiter = ratelimitNewPer o0.rateLimitMinute 60) ∧
      (¬ 0 < o0.rateLimitMinute →
        ctx.executerOpts.rateLimiter = ratelimitNew o0.rateLimit) ∧
      (ctx.executerOpts.rateLimiter = ratelimitNewPer o0.rateLimitMinute 60 ∨
        ctx.executerOpts.rateLimiter = ratelimitNew o0.rateLimit)) :=
  ⟨rfl, createExecuterOpts_rate_limiter_selection envOk st0 7 "/tmp/scan" o0 rfl⟩

/-- C5: when JobContext creation succeeds (state `Created`), the registry
query for the scan ID immediately returns the progress accessor, and
immediately after `Close` the query returns none. -/
theorem registry_entry_after_created_gone_after_closed (env : Env)
    (st : WorkerState) (scanID : Int) (dir : String) (o : TypesOptions)
    (hlog : exceptIsOk (env.logsWrite scanID) = true) :
    ∃ ctx st',
      createExecuterOpts env st scanID dir o = (Except.ok ctx, st') ∧
      runningLookup st'.running scanID =
        some (makePercentReturnFunc env.newStatsTicker.1) ∧
      runningLookup (ctx.Close st').running scanID = none := by
  cases hE : env.logsWrite scanID with
  | error e => rw [hE] at hlog; simp [exceptIsOk] at hlog
  | ok u =>
    simp only [createExecuterOpts, hE]
    exact ⟨_, _, rfl, runningLookup_runningStore_self _ _ _,
      runningLookup_runningDelete_self _ _⟩

/-- C5 witness: the concrete fixture registers and then removes scan 7. -/
theorem registry_entry_after_created_gone_after_closed_witness :
    exceptIsOk (envOk.logsWrite 7) = true ∧
    (∃ ctx st',
      createExecuterOpts envOk st0 7 "/tmp/scan" o0 = (Except.ok ctx, st') ∧
      runningLookup st'.running 7 =
        some (makePercentReturnFunc envOk.newStatsTicker.1) ∧
      runningLookup (ctx.Close st').running 7 = none) :=
  ⟨rfl, registry_entry_after_created_gone_after_closed envOk st0 7 "/tmp/scan"
    o0 rfl⟩

/-- C7: when configuration-profile resolution fails, `worker` returns that
very error and the registry still has no entry for the request's scan ID. -/
theorem worker_config_resolution_failure_no_entry (env : Env)
    (st : WorkerState) (req : ScanRequest) (e : Err)
    (hres : getSettingsForName env req.config = Except.error e)
    (hclean : runningLookup st.running req.scanID = none) :
    (worker env st req).1 = Except.error e ∧
    runningLookup (worker env st req).2.running req.scanID = none := by
  simp [worker, hres, hclean]

/-- C7 witness: a missing profile makes the concrete run fail with that
error and leaves the empty registry empty. -/
theorem worker_config_resolution_failure_no_entry_witness :
    getSettingsForName envSettingsFail req0.config = Except.error Err.notFound ∧
    runningLookup st0.running req0.scanID = none ∧
    ((worker envSettingsFail st0 req0).1 = Except.error Err.notFound ∧
      runningLookup (worker envSettingsFail st0 req0).2.running req0.scanID =
        none) :=
  ⟨rfl, rfl, worker_config_resolution_failure_no_entry envSettingsFail st0 req0
    Err.notFound rfl rfl⟩

/-- C2 counterexample: with both constructions succeeding but the store's
load step failing, `createExecuterFromOpts` still returns success, because
the caller invokes the load step as a bare statement and discards its
outcome; so the populate step does not return an error whenever loading
fails. -/
theorem createExecuterFromOpts_ignores_load_failure :
    envLoadFail.loaderNew = Except.ok { store0 with loadOk := false } ∧
    (Store.Load { store0 with loadOk := false }).2 = false ∧
    exceptIsOk (createExecuterFromOpts envLoadFail ctx0) = true :=
  ⟨rfl, rfl, rfl⟩

/-- C2 amended: the populate step returns an error exactly when
workflow-loader construction or template/workflow-store construction fails;
the load step's outcome is discarded and does not affect the result. -/
theorem createExecuterFromOpts_ok_iff_constructions_ok (env : Env)
    (scanCtx : scanContext) :
    exceptIsOk (createExecuterFromOpts env scanCtx) =
      (exceptIsOk env.newLoader && exceptIsOk env.loaderNew) := by
  cases h1 : env.newLoader <;> cases h2 : env.loaderNew <;>
    simp [createExecuterFromOpts, exceptIsOk, h1, h2, Store.Load]

theorem wrap64_eq_self (x : Int) (h0 : 0 ≤ x) (h1 : x < 2 ^ 63) :
    wrap64 x = x := by
  have h2 : (0:Int) ≤ x + 2 ^ 63 := by linarith [h0]
  have h3 : x + 2 ^ 63 < 2 ^ 64 := by norm_num at h1 ⊢; linarith
  unfold wrap64
  rw [Int.emod_eq_of_lt h2 h3]
  ring

/-- C1 counterexample: a run whose log-sink open fails returns its error,
yet the registry still holds the entry stored for the request's scan ID at
the start of JobContext creation — so not every exit path is leak-free. -/
theorem worker_log_open_failure_leaks_registry_entry :
    (worker envLogFail st0 req0).1 = Except.error Err.io ∧
    runningLookup (worker envLogFail st0 req0).2.running req0.scanID =
      some (makePercentReturnFunc progress0) :=
  ⟨rfl, rfl⟩

/-- C1 amended: starting from a state with no registry entry and no open
sink for the request's scan ID, if the log-sink open succeeds (the sole
failure mode of JobContext creation), then on every exit path of `worker`
the registry ends with no entry for the scan ID and its log sink is not
left open. -/
theorem worker_no_leak_when_log_open_succeeds (env : Env) (st : WorkerState)
    (req : ScanRequest)
    (hclean : runningLookup st.running req.scanID = none)
    (hsinks : req.scanID ∉ st.openSinks)
    (hlog : exceptIsOk (env.logsWrite req.scanID) = true) :
    runningLookup (worker env st req).2.running req.scanID = none ∧
    req.scanID ∉ (worker env st req).2.openSinks := by
  cases h1 : getSettingsForName env req.config with
  | error e => simp [worker, h1, hclean, hsinks]
  | ok o =>
    cases h2 : env.storeTemplatesFromRequest req.templates with
    | error e => simp [worker, h1, h2, hclean, hsinks]
    | ok trip =>
      obtain ⟨dir, tl, wl⟩ := trip
      cases hE : env.logsWrite req.scanID with
      | error e => rw [hE] at hlog; simp [exceptIsOk] at hlog
      | ok u =>
        cases h3 : env.newLoader with
        | error e =>
          simp [worker, h1, h2, createExecuterOpts, hE, createExecuterFromOpts,
            h3, osRemoveAll, scanContext.Close,
            runningLookup_runningDelete_self, notMem_filter_bne_self]
        | ok w =>
          cases h4 : env.loaderNew with
          | error e =>
            simp [worker, h1, h2, createExecuterOpts, hE,
              createExecuterFromOpts, h3, h4, osRemoveAll, scanContext.Close,
              runningLookup_runningDelete_self, notMem_filter_bne_self]
          | ok s =>
            cases h5 : env.inputProviderFromRequest req.targets with
            | error e =>
              simp [worker, h1, h2, createExecuterOpts, hE,
                createExecuterFromOpts, h3, h4, h5, osRemoveAll,
                scanContext.Close, runningLookup_runningDelete_self,
                notMem_filter_bne_self]
            | ok ip =>
              simp [worker, h1, h2, createExecuterOpts, hE,
                createExecuterFromOpts, h3, h4, h5, osRemoveAll,
                scanContext.Close, runningLookup_runningDelete_self,
                notMem_filter_bne_self]

/-- C1 amended witness: the all-success fixture ends with an empty
registry and no open sink for scan 7. -/
theorem worker_no_leak_when_log_open_succeeds_witness :
    runningLookup st0.running req0.scanID = none ∧
    req0.scanID ∉ st0.openSinks ∧
    exceptIsOk (envOk.logsWrite req0.scanID) = true ∧
    (runningLookup (worker envOk st0 req0).2.running req0.scanID = none ∧
      req0.scanID ∉ (worker envOk st0 req0).2.openSinks) :=
  ⟨rfl, by decide, rfl,
    worker_no_leak_when_log_open_succeeds envOk st0 req0 rfl (by decide) rfl⟩

/-- C4: if JobContext creation succeeded and the populate step then fails,
`worker` still closes the context — the registry entry is removed, the log
sink is closed, and the trace ends with flush/close-sink/unregister (then
working-area removal) — and the populate error is the returned value. -/
theorem worker_closes_context_when_populate_fails (env : Env)
    (st : WorkerState) (req : ScanRequest) (o : TypesOptions) (dir : String)
    (tl wl : List String) (e : Err)
    (hset : getSettingsForName env req.config = Except.ok o)
    (hmat : env.storeTemplatesFromRequest req.templates =
      Except.ok (dir, tl, wl))
    (hlog : exceptIsOk (env.logsWrite req.scanID) = true)
    (hpop : ∀ ctx, createExecuterFromOpts env ctx = Except.error e) :
    (worker env st req).1 = Except.error e ∧
    runningLookup (worker env st req).2.running req.scanID = none ∧
    req.scanID ∉ (worker env st req).2.openSinks ∧
    ∃ pre, (worker env st req).2.events =
      pre ++ [Event.flushLogs req.scanID, Event.closeLogSink req.scanID,
        Event.unregister req.scanID, Event.removeWorkDir dir] := by
  cases hE : env.logsWrite req.scanID with
  | error e' => rw [hE] at hlog; simp [exceptIsOk] at hlog
  | ok u =>
    refine ⟨?_, ?_, ?_, ?_⟩
    · simp [worker, hset, hmat, createExecuterOpts, hE, hpop, osRemoveAll,
        scanContext.Close]
    · simp [worker, hset, hmat, createExecuterOpts, hE, hpop, osRemoveAll,
        scanContext.Close, runningLookup_runningDelete_self]
    · simp [worker, hset, hmat, createExecuterOpts, hE, hpop, osRemoveAll,
        scanContext.Close, notMem_filter_bne_self]
    · refine ⟨st.events ++ [Event.registerProgress req.scanID,
        Event.logOpen req.scanID], ?_⟩
      simp [worker, hset, hmat, createExecuterOpts, hE, hpop, osRemoveAll,
        scanContext.Close]

/-- C4 witness: with workflow-loader construction failing, the concrete run
returns that error with the registry empty, the sink closed, and the close
actions traced before the working-area removal. -/
theorem worker_closes_context_when_populate_fails_witness :
    getSettingsForName envLoaderFail req0.config = Except.ok oDecoded ∧
    envLoaderFail.storeTemplatesFromRequest req0.templates =
      Except.ok ("/tmp/scan", ["t1", "t2"], ["w1"]) ∧
    exceptIsOk (envLoaderFail.logsWrite req0.scanID) = true ∧
    (∀ ctx, createExecuterFromOpts envLoaderFail ctx =
      Except.error Err.loaderConstruction) ∧
    ((worker envLoaderFail st0 req0).1 =
        Except.error Err.loaderConstruction ∧
      runningLookup (worker envLoaderFail st0 req0).2.running req0.scanID =
        none ∧
      req0.scanID ∉ (worker envLoaderFail st0 req0).2.openSinks ∧
      ∃ pre, (worker envLoaderFail st0 req0).2.events =
        pre ++ [Event.flushLogs req0.scanID, Event.closeLogSink req0.scanID,
          Event.unregister req0.scanID, Event.removeWorkDir "/tmp/scan"]) :=
  ⟨rfl, rfl, rfl, fun _ => rfl,
    worker_closes_context_when_populate_fails envLoaderFail st0 req0 oDecoded
      "/tmp/scan" ["t1", "t2"] ["w1"] Err.loaderConstruction rfl rfl rfl
      (fun _ => rfl)⟩

/-- C9: on a run that reaches the engine invocation, `worker` returns
success for every possible engine outcome (`env.executeResult` is
unconstrained, so any engine error is discarded), and the final metrics are
emitted after the execute action and before the return. -/
theorem worker_discards_engine_error (env : Env) (st : WorkerState)
    (req : ScanRequest) (o : TypesOptions) (dir : String)
    (tl wl : List String) (s : Store) (ip : InputProvider)
    (hset : getSettingsForName env req.config = Except.ok o)
    (hmat : env.storeTemplatesFromRequest req.templates =
      Except.ok (dir, tl, wl))
    (hlog : exceptIsOk (env.logsWrite req.scanID) = true)
    (hwl : exceptIsOk env.newLoader = true)
    (hst : env.loaderNew = Except.ok s)
    (hip : env.inputProviderFromRequest req.targets = Except.ok ip) :
    (worker env st req).1 = Except.ok () ∧
    ∃ pre, (worker env st req).2.events =
      pre ++ [Event.engineExecute env.executeResult,
        Event.metricsEmitted env.getMetrics,
        Event.flushLogs req.scanID, Event.closeLogSink req.scanID,
        Event.unregister req.scanID, Event.removeWorkDir dir] := by
  cases hE : env.logsWrite req.scanID with
  | error e' => rw [hE] at hlog; simp [exceptIsOk] at hlog
  | ok u =>
    cases h3 : env.newLoader with
    | error e' => rw [h3] at hwl; simp [exceptIsOk] at hwl
    | ok w =>
      refine ⟨?_, ?_⟩
      · simp [worker, hset, hmat, createExecuterOpts, hE,
          createExecuterFromOpts, h3, hst, hip, osRemoveAll,
          scanContext.Close]
      · refine ⟨st.events ++ [Event.registerProgress req.scanID,
          Event.logOpen req.scanID,
          Event.progressInit ip.count (s.templates ++ s.workflows).length
            (wrap64 (((s.templates ++ s.workflows).length : Int) *
              ip.count))], ?_⟩
        simp [worker, hset, hmat, createExecuterOpts, hE,
          createExecuterFromOpts, h3, hst, hip, osRemoveAll,
          scanContext.Close, Store.Load, storeTemplatesOf, storeWorkflowsOf,
          Store.Templates, Store.Workflows]

/-- C9 witness: the all-success fixture has the engine report an internal
error (`some Err.engine`), yet the run returns success after emitting the
metrics. -/
theorem worker_discards_engine_error_witness :
    getSettingsForName envOk req0.config = Except.ok oDecoded ∧
    envOk.storeTemplatesFromRequest req0.templates =
      Except.ok ("/tmp/scan", ["t1", "t2"], ["w1"]) ∧
    exceptIsOk (envOk.logsWrite req0.scanID) = true ∧
    exceptIsOk envOk.newLoader = true ∧
    envOk.loaderNew = Except.ok store0 ∧
    envOk.inputProviderFromRequest req0.targets =
      Except.ok { count := 3 } ∧
    envOk.executeResult = some Err.engine ∧
    ((worker envOk st0 req0).1 = Except.ok () ∧
      ∃ pre, (worker envOk st0 req0).2.events =
        pre ++ [Event.engineExecute envOk.executeResult,
          Event.metricsEmitted envOk.getMetrics,
          Event.flushLogs req0.scanID, Event.closeLogSink req0.scanID,
          Event.unregister req0.scanID, Event.removeWorkDir "/tmp/scan"]) :=
  ⟨rfl, rfl, rfl, rfl, rfl, rfl, rfl,
    worker_discards_engine_error envOk st0 req0 oDecoded "/tmp/scan"
      ["t1", "t2"] ["w1"] store0 { count := 3 } rfl rfl rfl rfl rfl rfl⟩

/-- C8: on a run that reaches execution, the progress tracker is
initialized — immediately before the engine-execute action — with exactly
the target count, the length of the concatenated templates-then-workflows
list, and their product (targets × templates); the bounds keep Go's 64-bit
product exact. -/
theorem worker_progress_init_before_execute (env : Env) (st : WorkerState)
    (req : ScanRequest) (o : TypesOptions) (dir : String)
    (tl wl : List String) (s : Store) (ip : InputProvider)
    (hset : getSettingsForName env req.config = Except.ok o)
    (hmat : env.storeTemplatesFromRequest req.templates =
      Except.ok (dir, tl, wl))
    (hlog : exceptIsOk (env.logsWrite req.scanID) = true)
    (hwl : exceptIsOk env.newLoader = true)
    (hst : env.loaderNew = Except.ok s)
    (hip : env.inputProviderFromRequest req.targets = Except.ok ip)
    (hc : 0 ≤ ip.count)
    (hbound : ((s.templates ++ s.workflows).length : Int) * ip.count <
      2 ^ 63) :
    ∃ pre post, (worker env st req).2.events =
      pre ++ Event.progressInit ip.count (s.templates ++ s.workflows).length
          (ip.count * ((s.templates ++ s.workflows).length : Int)) ::
        Event.engineExecute env.executeResult :: post := by
  have hw : wrap64 (((s.templates ++ s.workflows).length : Int) * ip.count) =
      ip.count * ((s.templates ++ s.workflows).length : Int) := by
    rw [wrap64_eq_self _ (mul_nonneg (Int.natCast_nonneg _) hc) hbound,
      mul_comm]
  cases hE : env.logsWrite req.scanID with
  | error e' => rw [hE] at hlog; simp [exceptIsOk] at hlog
  | ok u =>
    cases h3 : env.newLoader with
    | error e' => rw [h3] at hwl; simp [exceptIsOk] at hwl
    | ok w =>
      refine ⟨st.events ++ [Event.registerProgress req.scanID,
        Event.logOpen req.scanID],
        [Event.metricsEmitted env.getMetrics, Event.flushLogs req.scanID,
          Event.closeLogSink req.scanID, Event.unregister req.scanID,
          Event.removeWorkDir dir], ?_⟩
      simp [worker, hset, hmat, createExecuterOpts, hE,
        createExecuterFromOpts, h3, hst, hip, osRemoveAll, scanContext.Close,
        Store.Load, storeTemplatesOf, storeWorkflowsOf, Store.Templates,
        Store.Workflows, hw, -List.length_append]

/-- C8 witness: with 3 targets and 2 templates plus 1 workflow the tracker
is initialized with (3, 3, 9) right before the execute action. -/
theorem worker_progress_init_before_execute_witness :
    getSettingsForName envOk req0.config = Except.ok oDecoded ∧
    envOk.storeTemplatesFromRequest req0.templates =
      Except.ok ("/tmp/scan", ["t1", "t2"], ["w1"]) ∧
    exceptIsOk (envOk.logsWrite req0.scanID) = true ∧
    exceptIsOk envOk.newLoader = true ∧
    envOk.loaderNew = Except.ok store0 ∧
    envOk.inputProviderFromRequest req0.targets =
      Except.ok { count := 3 } ∧
    (0:Int) ≤ InputProvider.count { count := 3 } ∧
    ((store0.templates ++ store0.workflows).length : Int) *
        InputProvider.count { count := 3 } < 2 ^ 63 ∧
    ∃ pre post, (worker envOk st0 req0).2.events =
      pre ++ Event.progressInit (InputProvider.count { count := 3 })
          (store0.templates ++ store0.workflows).length
          (InputProvider.count { count := 3 } *
            ((store0.templates ++ store0.workflows).length : Int)) ::
        Event.engineExecute envOk.executeResult :: post :=
  ⟨rfl, rfl, rfl, rfl, rfl, rfl, by norm_num, by norm_num [store0],
    worker_progress_init_before_execute envOk st0 req0 oDecoded "/tmp/scan"
      ["t1", "t2"] ["w1"] store0 { count := 3 } rfl rfl rfl rfl rfl rfl
      (by norm_num) (by norm_num [store0])⟩

end Scans
